import Mathlib

/-!
Verification development for the vimeo-to-panda mirror.

The repository has two traversal variants plus a sync side-script:
* `src/getVimeoPandaLinks.js` — traversal with a Mapping-Store fast path,
  `axiosVimeoRetry`, exact-match folder resolution and an
  `INSERT .. ON DUPLICATE KEY UPDATE` upsert;
* `src/index.js` — traversal with `safeGet`/`safePost`, catch-all folder
  helpers, a `folderMap` cache, `saveVideoMapping`, and a call to the
  undefined identifier `findPandaVideoByVimeoUrl`.

Remote calls are embedded as pure environment functions (`Url → Except JsErr …`);
thrown JavaScript errors are `Except.error`; JavaScript `undefined`/`null`
results are `Option.none`.  Loops that follow server-provided next links are
given explicit fuel; running out of fuel is the artificial `JsErr.fuelOut`,
which never arises on the concrete inputs used below.
-/

namespace VimeoPanda

abbrev Url := String

/-- Errors observable from the embedded JavaScript.  `axios s c` is a thrown
axios error carrying `e.response?.status` and `e.code`; `exhausted` is the
`new Error("Falha ao acessar Vimeo após N tentativas")` thrown after the
retry loop of `axiosVimeoRetry`; `formatError` is the `new Error("Formato
inválido…")` thrown by the `index.js` variant of `formatVimeoUrl`;
`referenceError` is the ReferenceError thrown when the undefined identifier
`findPandaVideoByVimeoUrl` is evaluated; `fuelOut` is the embedding artifact
for loops that outlive their fuel. -/
inductive JsErr where
  | axios (status : Option Nat) (code : Option String)
  | exhausted
  | formatError
  | referenceError
  | fuelOut
  deriving DecidableEq, Repr

/-- JavaScript truthiness filter for an optional string: `x || null` and
`if (!x)` treat both a missing value and the empty string as absent. -/
def jsOrNull (o : Option String) : Option String :=
  match o with
  | some s => if s = "" then none else some s
  | none => none

/-- JavaScript `x || d` for an optional string with a string default. -/
def jsOrStr (o : Option String) (d : String) : String :=
  match o with
  | some s => if s = "" then d else s
  | none => d

/-- The character sequence matched by the anchored prefix of the regex
`^\/videos\/(\d+)$`. -/
def videosPathChars : List Char := ['/', 'v', 'i', 'd', 'e', 'o', 's', '/']

/-- Characters of the normalized player URL prefix produced by
`formatVimeoUrl`. -/
def playerUrlChars : List Char := "https://player.vimeo.com/video/".data

/-- Matches the anchored literal prefix `/videos/` of the regex
`^\/videos\/(\d+)$`, returning the remainder of the path. -/
def stripVideosPath : List Char → Option (List Char)
  | '/' :: 'v' :: 'i' :: 'd' :: 'e' :: 'o' :: 's' :: '/' :: rest => some rest
  | _ => none

/-- `formatVimeoUrl` from `src/getVimeoPandaLinks.js`: `path.match(/^\/videos\/(\d+)$/)`
yields the digit group, which is embedded into the player URL; a non-matching
path returns `null`. -/
def formatVimeoUrl (path : String) : Option String :=
  match stripVideosPath path.data with
  | some rest =>
      if !rest.isEmpty && rest.all Char.isDigit then
        some (String.mk (playerUrlChars ++ rest))
      else none
  | none => none

/-- `formatVimeoUrl` from `src/index.js`: same regex, but a non-matching path
throws `new Error("Formato inválido. Esperado: /videos/{id}")`. -/
def formatVimeoUrlIdx (path : String) : Except JsErr String :=
  match stripVideosPath path.data with
  | some rest =>
      if !rest.isEmpty && rest.all Char.isDigit then
        .ok (String.mk (playerUrlChars ++ rest))
      else .error .formatError
  | none => .error .formatError

/-- `formatPandaIdToUrl` (identical in `src/getVimeoPandaLinks.js` and the
unnamed sync script). -/
def formatPandaIdToUrl (videoId : String) : String :=
  "https://player-vz-4cab7bf9-47f.tv.pandavideo.com.br/embed/?v=" ++ videoId

/-- A Target (Panda) folder as returned by `GET /folders`. -/
structure PandaFolder where
  id : String
  name : String
  parent_folder_id : Option String
  deriving DecidableEq, Repr

/-- The predicate of the `find` callback shared by both variants of
`findPandaFolder`: `f.name === name && ((f.parent_folder_id === parentFolderId)
|| (f.parent_folder_id == null && parentFolderId == null))`. -/
def pandaFolderMatches (name : String) (parentFolderId : Option String)
    (f : PandaFolder) : Bool :=
  f.name == name &&
    (f.parent_folder_id == parentFolderId ||
      (f.parent_folder_id.isNone && parentFolderId.isNone))

/-- The folder scan shared by both variants of `findPandaFolder`:
first matching folder's id, else `null`. -/
def findPandaFolderSearch (folders : List PandaFolder) (name : String)
    (parentFolderId : Option String) : Option String :=
  (folders.find? (pandaFolderMatches name parentFolderId)).map (·.id)

/-- A row of the durable `vimeo_panda_videos` table (the Mapping Store). -/
structure VideoRow where
  vimeo_video_id : String
  panda_video_id : Option String
  panda_websocket_url : Option String
  title : Option String
  updated_at : Nat
  deriving DecidableEq, Repr

abbrev DB := List VideoRow

/-- `vimeoVideoExists` from `src/getVimeoPandaLinks.js`:
`SELECT 1 FROM vimeo_panda_videos WHERE vimeo_video_id = ? LIMIT 1`. -/
def vimeoVideoExists (db : DB) (url : String) : Bool :=
  db.any (·.vimeo_video_id == url)

/-- Number of Mapping Store rows keyed by `url`. -/
def countKey (db : DB) (url : String) : Nat :=
  (db.filter (·.vimeo_video_id == url)).length

/-- Modelled from the spec: the Mapping Store schema (external to `src/`)
declares `vimeo_video_id` as the unique key, so MySQL `INSERT … ON DUPLICATE
KEY UPDATE` updates the existing row with that key.  This is the statement
executed by `processVideosInFolder` in `src/getVimeoPandaLinks.js`: on
conflict it overwrites `panda_video_id`, `title` and `updated_at` and leaves
the other columns alone; otherwise it inserts a fresh row. -/
def upsertLinksRow (db : DB) (url pandaUrl title : String) (now : Nat) : DB :=
  if vimeoVideoExists db url then
    db.map (fun r =>
      if r.vimeo_video_id == url then
        { r with panda_video_id := some pandaUrl, title := some title,
                 updated_at := now }
      else r)
  else
    db ++ [⟨url, some pandaUrl, none, some title, now⟩]

/-- Modelled from the spec: same unique-key convention as `upsertLinksRow`.
This is the statement executed by `saveVideoMapping` in `src/index.js`: on
conflict it overwrites `panda_video_id`, `panda_websocket_url`, `title` and
`updated_at`. -/
def upsertMappingRow (db : DB) (url : String)
    (pandaVideoId pandaWebsocketUrl title : Option String) (now : Nat) : DB :=
  if vimeoVideoExists db url then
    db.map (fun r =>
      if r.vimeo_video_id == url then
        { r with panda_video_id := pandaVideoId,
                 panda_websocket_url := pandaWebsocketUrl,
                 title := title, updated_at := now }
      else r)
  else
    db ++ [⟨url, pandaVideoId, pandaWebsocketUrl, title, now⟩]

/-- `saveVideoMapping` from `src/index.js`: formats the Vimeo id (which can
throw) and then runs the upsert. -/
def saveVideoMapping (db : DB) (vimeoVideoId : String)
    (pandaVideoId pandaWebsocketUrl title : Option String) (now : Nat) :
    Except JsErr DB :=
  match formatVimeoUrlIdx vimeoVideoId with
  | .error e => .error e
  | .ok url => .ok (upsertMappingRow db url pandaVideoId pandaWebsocketUrl title now)

/-! ## Resilient request layer

One HTTP attempt either succeeds with a body or fails like a thrown axios
error, carrying `e.response?.status`, the parsed `retry-after` response
header (absent when the header is missing or falsy; the source applies
`parseInt(h, 10)`, so the model carries the parsed seconds), and `e.code`.
An environment `res : Nat → AxiosOutcome` gives the outcome of each attempt,
indexed by the same counter the source loops over. -/

inductive AxiosOutcome where
  | ok (body : String)
  | err (status : Option Nat) (retryAfter : Option Nat) (code : Option String)
  deriving DecidableEq, Repr

/-- The retry loop shared verbatim by `safeGet` and `safePost` in
`src/index.js` (`for (let attempt = 1; attempt <= retry; attempt++)`), with
`remaining = retry - attempt + 1` as fuel.  A successful attempt returns
`res.data`; HTTP 429 waits (`retry-after` seconds × 1000 when the header is
present, else `2000 * attempt`) and `continue`s; any other error is rethrown
on the final attempt and otherwise waits `1000 * attempt`.  When the loop
exhausts without returning — which happens when the final attempt hits the
429 `continue` — the function falls off the end and resolves with
`undefined`, modelled as `.ok none`.  Also returns the list of waits (ms)
performed, in order. -/
def safeRequestAux (res : Nat → AxiosOutcome) :
    Nat → Nat → Except JsErr (Option String) × List Nat
  | 0, _ => (.ok none, [])
  | remaining + 1, attempt =>
      match res attempt with
      | .ok body => (.ok (some body), [])
      | .err status retryAfter code =>
          if status = some 429 then
            let wait := match retryAfter with
              | some s => s * 1000
              | none => 2000 * attempt
            let rest := safeRequestAux res remaining (attempt + 1)
            (rest.1, wait :: rest.2)
          else if remaining = 0 then
            (.error (.axios status code), [])
          else
            let rest := safeRequestAux res remaining (attempt + 1)
            (rest.1, (1000 * attempt) :: rest.2)

/-- `safeGet` from `src/index.js` (default `retry = 3`). -/
def safeGet (res : Nat → AxiosOutcome) (retry : Nat) :
    Except JsErr (Option String) × List Nat :=
  safeRequestAux res retry 1

/-- `safePost` from `src/index.js`: its retry loop is character-for-character
the same as `safeGet`'s, differing only in issuing a POST. -/
def safePost (res : Nat → AxiosOutcome) (retry : Nat) :
    Except JsErr (Option String) × List Nat :=
  safeRequestAux res retry 1

/-- The retry loop of `axiosVimeoRetry` in `src/getVimeoPandaLinks.js`
(`for (let attempt = 0; attempt < retries; attempt++)`), with
`remaining = retries - attempt` as fuel.  HTTP 429 waits
`parseInt(headers['retry-after'] || '5') * 1000 * (attempt + 1)`;
`ECONNRESET`/`ETIMEDOUT` waits `2000 * (attempt + 1)`; any other error is
rethrown immediately; after the loop the function throws the
"Falha ao acessar Vimeo" error. -/
def axiosVimeoRetryAux (res : Nat → AxiosOutcome) :
    Nat → Nat → Except JsErr String × List Nat
  | 0, _ => (.error .exhausted, [])
  | remaining + 1, attempt =>
      match res attempt with
      | .ok body => (.ok body, [])
      | .err status retryAfter code =>
          if status = some 429 then
            let wait := retryAfter.getD 5 * 1000 * (attempt + 1)
            let rest := axiosVimeoRetryAux res remaining (attempt + 1)
            (rest.1, wait :: rest.2)
          else if code = some "ECONNRESET" ∨ code = some "ETIMEDOUT" then
            let wait := 2000 * (attempt + 1)
            let rest := axiosVimeoRetryAux res remaining (attempt + 1)
            (rest.1, wait :: rest.2)
          else
            (.error (.axios status code), [])

/-- `axiosVimeoRetry` from `src/getVimeoPandaLinks.js` (default
`retries = 5`). -/
def axiosVimeoRetry (res : Nat → AxiosOutcome) (retries : Nat) :
    Except JsErr String × List Nat :=
  axiosVimeoRetryAux res retries 0

/-! ## Hierarchy walker of `src/getVimeoPandaLinks.js`

The Vimeo pages fetched through `axiosVimeoRetry`, the Panda folder listing
of `findPandaFolder` and the Panda title search of `findPandaVideoByTitle`
are environment functions; each can fail like the corresponding remote call
(none of them is wrapped in a `try` in this variant, so failures propagate).
The traversal threads the Mapping Store `db` and counts its upserts. -/

/-- An element of a Vimeo video page's `data` array (the fields read by
`processVideosInFolder`). -/
structure VideoEntry where
  name : Option String
  uri : String
  deriving DecidableEq, Repr

/-- A Vimeo video-listing page: `data.data` and `data.paging?.next`. -/
structure VmVideoPage where
  data : Option (List VideoEntry)
  next : Option Url
  deriving DecidableEq, Repr

/-- An element of a Vimeo folder page's `data` array (the fields of
`folder.folder` read by `processFolder`). -/
structure FolderEntry where
  name : Option String
  uri : Option String
  videosUri : Option Url
  itemsUri : Option Url
  deriving DecidableEq, Repr

/-- A Vimeo folder-listing page. -/
structure VmFolderPage where
  data : Option (List FolderEntry)
  next : Option Url
  deriving DecidableEq, Repr

/-- A Panda video as consumed by `processVideosInFolder`
(`pandaVideo.video_external_id`). -/
structure PandaVideo where
  video_external_id : String
  deriving DecidableEq, Repr

/-- `findPandaFolder` from `src/getVimeoPandaLinks.js`: performs
`axiosPanda.get("/folders")` (no `try`, so an error propagates), reads
`res.data?.folders` (`none` when missing) and scans it. -/
def findPandaFolder (foldersResp : Except JsErr (Option (List PandaFolder)))
    (name : String) (parentFolderId : Option String) :
    Except JsErr (Option String) :=
  match foldersResp with
  | .error e => .error e
  | .ok none => .ok none
  | .ok (some folders) => .ok (findPandaFolderSearch folders name parentFolderId)

/-- The body of the `for (const video of data.data)` loop of
`processVideosInFolder` in `src/getVimeoPandaLinks.js`.  Returns the new
store, the number of store writes (0 or 1) and the number of remote Panda
calls (0 or 1).  `pandaByTitle folderId title` is the outcome of
`findPandaVideoByTitle`. -/
def processVideo
    (pandaByTitle : String → String → Except JsErr (Option PandaVideo))
    (pandaFolderId : String) (now : Nat) (db : DB) (v : VideoEntry) :
    Except JsErr (DB × Nat × Nat) :=
  match formatVimeoUrl v.uri with
  | none => .ok (db, 0, 0)
  | some vimeoVideoUrl =>
      if vimeoVideoExists db vimeoVideoUrl then .ok (db, 0, 0)
      else
        match pandaByTitle pandaFolderId (jsOrStr v.name "sem título") with
        | .error e => .error e
        | .ok (some pandaVideo) =>
            .ok (upsertLinksRow db vimeoVideoUrl
                   (formatPandaIdToUrl pandaVideo.video_external_id)
                   (jsOrStr v.name "sem título") now,
                 1, 1)
        | .ok none => .ok (db, 0, 1)

/-- The `for (const video of data.data)` loop itself, accumulating store
writes. -/
def processVideoList
    (pandaByTitle : String → String → Except JsErr (Option PandaVideo))
    (pandaFolderId : String) (now : Nat) :
    List VideoEntry → DB → Except JsErr (DB × Nat)
  | [], db => .ok (db, 0)
  | v :: rest, db =>
      match processVideo pandaByTitle pandaFolderId now db v with
      | .error e => .error e
      | .ok (db₁, w, _calls) =>
          match processVideoList pandaByTitle pandaFolderId now rest db₁ with
          | .error e => .error e
          | .ok (db₂, wrest) => .ok (db₂, w + wrest)

/-- The `do … while (url)` page loop of `processVideosInFolder`: fetches a
page (via `axiosVimeoRetry`), `break`s when `data?.data` is missing,
processes the videos and follows `data.paging?.next || null`. -/
def goVideoPages (fetchVideos : Url → Except JsErr VmVideoPage)
    (pandaByTitle : String → String → Except JsErr (Option PandaVideo))
    (pandaFolderId : String) (now : Nat) :
    Nat → Url → DB → Except JsErr (DB × Nat)
  | 0, _, _ => .error .fuelOut
  | fuel + 1, url, db =>
      match fetchVideos url with
      | .error e => .error e
      | .ok page =>
          match page.data with
          | none => .ok (db, 0)
          | some videos =>
              match processVideoList pandaByTitle pandaFolderId now videos db with
              | .error e => .error e
              | .ok (db₁, w₁) =>
                  match jsOrNull page.next with
                  | none => .ok (db₁, w₁)
                  | some nxt =>
                      match goVideoPages fetchVideos pandaByTitle pandaFolderId
                          now fuel nxt db₁ with
                      | .error e => .error e
                      | .ok (db₂, w₂) => .ok (db₂, w₁ + w₂)

/-- `processVideosInFolder` from `src/getVimeoPandaLinks.js`: returns at once
when the folder entry has no `metadata.connections.videos.uri`, else starts
the page loop at `videosUri + "?per_page=50"`. -/
def processVideosInFolder (fetchVideos : Url → Except JsErr VmVideoPage)
    (pandaByTitle : String → String → Except JsErr (Option PandaVideo))
    (now : Nat) (fuel : Nat) (vimeoFolder : FolderEntry)
    (pandaFolderId : String) (db : DB) : Except JsErr (DB × Nat) :=
  match jsOrNull vimeoFolder.videosUri with
  | none => .ok (db, 0)
  | some videosUri =>
      goVideoPages fetchVideos pandaByTitle pandaFolderId now fuel
        (videosUri ++ "?per_page=50") db

/-- The `for (const folder of data.data)` loop of `processFolder` in
`src/getVimeoPandaLinks.js`.  `recur` is the recursive `processFolder` call
applied to a subfolder's `items.uri`, and `goVid` is
`processVideosInFolder`; both are instantiated by `goFolderPages`.  A folder
entry with a falsy `folder.folder?.uri` is skipped; an entry whose Panda
folder is not found (falsy id) is logged and skipped; all remote errors
propagate. -/
def goEntries (recur : Url → String → DB → Except JsErr (DB × Nat))
    (goVid : FolderEntry → String → DB → Except JsErr (DB × Nat))
    (foldersResp : Except JsErr (Option (List PandaFolder)))
    (pandaParentId : Option String) :
    List FolderEntry → DB → Except JsErr (DB × Nat)
  | [], db => .ok (db, 0)
  | e :: rest, db =>
      match jsOrNull e.uri with
      | none => goEntries recur goVid foldersResp pandaParentId rest db
      | some _vimeoUri =>
          match findPandaFolder foldersResp (jsOrStr e.name "sem nome")
              pandaParentId with
          | .error er => .error er
          | .ok found =>
              match jsOrNull found with
              | none => goEntries recur goVid foldersResp pandaParentId rest db
              | some pandaFolderId =>
                  match goVid e pandaFolderId db with
                  | .error er => .error er
                  | .ok (db₁, w₁) =>
                      match (match jsOrNull e.itemsUri with
                             | none => Except.ok (db₁, 0)
                             | some subfoldersUri =>
                                 recur subfoldersUri pandaFolderId db₁) with
                      | .error er => .error er
                      | .ok (db₂, w₂) =>
                          match goEntries recur goVid foldersResp pandaParentId
                              rest db₂ with
                          | .error er => .error er
                          | .ok (db₃, w₃) => .ok (db₃, w₁ + w₂ + w₃)

/-- The `do … while (url)` page loop of `processFolder`: fetches a folder
page, `break`s when `data?.data` is missing, runs the entry loop (which
recurses into subfolders with the just-resolved Panda id as parent) and
follows `data.paging?.next || null`. -/
def goFolderPages (fetchFolders : Url → Except JsErr VmFolderPage)
    (fetchVideos : Url → Except JsErr VmVideoPage)
    (foldersResp : Except JsErr (Option (List PandaFolder)))
    (pandaByTitle : String → String → Except JsErr (Option PandaVideo))
    (now : Nat) :
    Nat → Url → Option String → DB → Except JsErr (DB × Nat)
  | 0, _, _, _ => .error .fuelOut
  | fuel + 1, url, pandaParentId, db =>
      match fetchFolders url with
      | .error e => .error e
      | .ok page =>
          match page.data with
          | none => .ok (db, 0)
          | some entries =>
              match goEntries
                  (fun subfoldersUri pandaFolderId db₀ =>
                    goFolderPages fetchFolders fetchVideos foldersResp
                      pandaByTitle now fuel (subfoldersUri ++ "?per_page=50")
                      (some pandaFolderId) db₀)
                  (fun e pandaFolderId db₀ =>
                    processVideosInFolder fetchVideos pandaByTitle now fuel
                      e pandaFolderId db₀)
                  foldersResp pandaParentId entries db with
              | .error e => .error e
              | .ok (db₁, w₁) =>
                  match jsOrNull page.next with
                  | none => .ok (db₁, w₁)
                  | some nxt =>
                      match goFolderPages fetchFolders fetchVideos foldersResp
                          pandaByTitle now fuel nxt pandaParentId db₁ with
                      | .error e => .error e
                      | .ok (db₂, w₂) => .ok (db₂, w₁ + w₂)

/-- `processFolder` from `src/getVimeoPandaLinks.js`: starts the page loop at
`vimeoFolderUri + "?per_page=50"`.  `run()` invokes it with the root
collection URI and `pandaParentId = null`. -/
def processFolder (fetchFolders : Url → Except JsErr VmFolderPage)
    (fetchVideos : Url → Except JsErr VmVideoPage)
    (foldersResp : Except JsErr (Option (List PandaFolder)))
    (pandaByTitle : String → String → Except JsErr (Option PandaVideo))
    (now : Nat) (fuel : Nat) (vimeoFolderUri : Url)
    (pandaParentId : Option String) (db : DB) : Except JsErr (DB × Nat) :=
  goFolderPages fetchFolders fetchVideos foldersResp pandaByTitle now fuel
    (vimeoFolderUri ++ "?per_page=50") pandaParentId db

/-! ## The `src/index.js` variant

`safeGet` results arrive as `Except JsErr (Option …)`: an error is a thrown
rejection, `.ok none` is the `undefined` that `safeGet` resolves with after
its 429 fall-through, and callers guard with `!data?.data`. -/

/-- One element of `video.download` (the fields the sort and the link
extraction read). -/
structure DownloadLink where
  width : Option Nat
  link : Option String
  deriving DecidableEq, Repr

/-- An element of a Vimeo video page's `data` array as read by the
`index.js` `processVideosInFolder`. -/
structure IdxVideo where
  name : Option String
  description : Option String
  uri : String
  download : Option (List DownloadLink)
  deriving DecidableEq, Repr

/-- A video page in the `index.js` variant. -/
structure IdxVideoPage where
  data : Option (List IdxVideo)
  next : Option Url
  deriving DecidableEq, Repr

/-- Stable insertion into a width-descending list.  The inserted element is
the originally earlier one, so it moves past an entry only when that entry
is strictly wider; at equal widths it stays in front, preserving the
original relative order of ties. -/
def insertDownloadDesc (d : DownloadLink) : List DownloadLink → List DownloadLink
  | [] => [d]
  | e :: rest =>
      if d.width.getD 0 < e.width.getD 0 then e :: insertDownloadDesc d rest
      else d :: e :: rest

/-- `video.download.sort((a, b) => (b.width || 0) - (a.width || 0))`: a
stable sort by width, widest first (`Array.prototype.sort` is stable and
the comparator returns 0 on width ties, so equally wide entries keep their
original order), modelled as stable insertion sort: each element is
inserted in front of the equally wide, originally later ones. -/
def sortDownloadsDesc : List DownloadLink → List DownloadLink
  | [] => []
  | d :: rest => insertDownloadDesc d (sortDownloadsDesc rest)

/-- The `downloadUrl` computation of the `index.js` `processVideosInFolder`:
`null` unless `video.download` is a nonempty array, else the widest entry's
`link || null`. -/
def idxDownloadUrl (v : IdxVideo) : Option String :=
  match v.download with
  | none => none
  | some links =>
      if links.isEmpty then none
      else
        match sortDownloadsDesc links with
        | [] => none
        | d :: _ => jsOrNull d.link

/-- The body of the per-video loop of `processVideosInFolder` in
`src/index.js`.  A video without a usable download URL is logged and
skipped.  Otherwise the code calls `findPandaVideoByVimeoUrl(downloadUrl)` —
an identifier defined nowhere in the program — so evaluating the call throws
a ReferenceError before any match check or store write. -/
def idxProcessVideo (db : DB) (v : IdxVideo) : Except JsErr DB :=
  match idxDownloadUrl v with
  | none => .ok db
  | some _downloadUrl => .error .referenceError

/-- The `for (const video of data.data)` loop of the `index.js`
`processVideosInFolder`. -/
def idxProcessVideos : DB → List IdxVideo → Except JsErr DB
  | db, [] => .ok db
  | db, v :: rest =>
      match idxProcessVideo db v with
      | .error e => .error e
      | .ok db₁ => idxProcessVideos db₁ rest

/-- The `do … while (url)` page loop of the `index.js`
`processVideosInFolder`: `safeGet` may throw, resolve with `undefined`
(guarded by `!data?.data`) or return a page; missing/non-array `data.data`
`break`s; `data.paging?.next || null` continues. -/
def idxGoVideoPages (fetchVideos : Url → Except JsErr (Option IdxVideoPage)) :
    Nat → Url → DB → Except JsErr DB
  | 0, _, _ => .error .fuelOut
  | fuel + 1, url, db =>
      match fetchVideos url with
      | .error e => .error e
      | .ok none => .ok db
      | .ok (some page) =>
          match page.data with
          | none => .ok db
          | some videos =>
              match idxProcessVideos db videos with
              | .error e => .error e
              | .ok db₁ =>
                  match jsOrNull page.next with
                  | none => .ok db₁
                  | some nxt => idxGoVideoPages fetchVideos fuel nxt db₁

/-- `processVideosInFolder` from `src/index.js`: returns at once when the
folder has no videos connection, else pages from
`videosUri + "?per_page=100"`. -/
def idxProcessVideosInFolder (fetchVideos : Url → Except JsErr (Option IdxVideoPage))
    (fuel : Nat) (vimeoFolder : FolderEntry) (db : DB) : Except JsErr DB :=
  match jsOrNull vimeoFolder.videosUri with
  | none => .ok db
  | some videosUri =>
      idxGoVideoPages fetchVideos fuel (videosUri ++ "?per_page=100") db

/-- `findPandaFolder` from `src/index.js`: the whole body is wrapped in
`try { … } catch (e) { return null; }`, so a thrown `safeGet` error — or
exhausted retries — yields `null`; an `undefined` result or a missing
`folders` array yields `null`; otherwise the exact-match scan runs. -/
def findPandaFolderIdx (listResp : Except JsErr (Option (List PandaFolder)))
    (name : String) (parentFolderId : Option String) : Option String :=
  match listResp with
  | .error _ => none
  | .ok none => none
  | .ok (some folders) => findPandaFolderSearch folders name parentFolderId

/-- `createPandaFolder` from `src/index.js`: also catch-all — a thrown
`safePost` error yields `null`, a response without an `id` yields `null`,
else the new id.  `postResp` is the outcome of the POST. -/
def createPandaFolderIdx (postResp : Except JsErr (Option String)) :
    Option String :=
  match postResp with
  | .error _ => none
  | .ok none => none
  | .ok (some id) => some id

/-- The folder-resolution step of `processFolder` in `src/index.js`
(lines 279–287) together with an explicit model of the Target platform's
folder list: when the `GET /folders` call succeeds it returns the current
Target list; a successful `POST /folders` appends a fresh folder (the
payload omits `parent_folder_id` when it is falsy).  `listFailure` is the
error thrown by the listing call, when any; `postResp` is the creation
outcome.  Returns the resolved id (when any) and the Target list after the
step. -/
def idxResolveFolderStep (target : List PandaFolder)
    (listFailure : Option JsErr) (postResp : Except JsErr (Option String))
    (name : String) (pandaParentId : Option String) :
    Option String × List PandaFolder :=
  let listResp : Except JsErr (Option (List PandaFolder)) :=
    match listFailure with
    | some e => .error e
    | none => .ok (some target)
  match jsOrNull (findPandaFolderIdx listResp name pandaParentId) with
  | some pandaFolderId => (some pandaFolderId, target)
  | none =>
      match jsOrNull (createPandaFolderIdx postResp) with
      | none => (none, target)
      | some newId =>
          (some newId, target ++ [⟨newId, name, jsOrNull pandaParentId⟩])

/-- The run-scoped `folderMap` cache of `src/index.js`. -/
abbrev FolderMap := List (String × String)

/-- The `for (const folder of data.data)` loop of `processFolder` in
`src/index.js`: a falsy `folder.folder?.uri` is skipped; a cached URI reuses
its Panda id; otherwise `findPandaFolder`, then `createPandaFolder`, and a
still-falsy id skips the entry; video processing and the subfolder
recursion propagate their errors.  `recur` is the recursive `processFolder`
call and `goVid` is `processVideosInFolder`. -/
def idxGoEntries
    (recur : Url → String → DB → FolderMap → Except JsErr (DB × FolderMap))
    (goVid : FolderEntry → String → DB → Except JsErr DB)
    (listResp : Except JsErr (Option (List PandaFolder)))
    (postResp : String → Option String → Except JsErr (Option String))
    (pandaParentId : Option String) :
    List FolderEntry → DB → FolderMap → Except JsErr (DB × FolderMap)
  | [], db, fm => .ok (db, fm)
  | e :: rest, db, fm =>
      match jsOrNull e.uri with
      | none => idxGoEntries recur goVid listResp postResp pandaParentId rest db fm
      | some vimeoUri =>
          let folderName := jsOrStr e.name "sem nome"
          match fm.lookup vimeoUri with
          | some pandaFolderId =>
              match goVid e pandaFolderId db with
              | .error er => .error er
              | .ok db₁ =>
                  match (match jsOrNull e.itemsUri with
                         | none => Except.ok (db₁, fm)
                         | some subfoldersUri =>
                             recur subfoldersUri pandaFolderId db₁ fm) with
                  | .error er => .error er
                  | .ok (db₂, fm₂) =>
                      idxGoEntries recur goVid listResp postResp pandaParentId
                        rest db₂ fm₂
          | none =>
              let found := jsOrNull (findPandaFolderIdx listResp folderName
                pandaParentId)
              let resolved := match found with
                | some pandaFolderId => some pandaFolderId
                | none =>
                    jsOrNull (createPandaFolderIdx
                      (postResp folderName pandaParentId))
              match resolved with
              | none =>
                  idxGoEntries recur goVid listResp postResp pandaParentId
                    rest db fm
              | some pandaFolderId =>
                  let fm₁ := (vimeoUri, pandaFolderId) :: fm
                  match goVid e pandaFolderId db with
                  | .error er => .error er
                  | .ok db₁ =>
                      match (match jsOrNull e.itemsUri with
                             | none => Except.ok (db₁, fm₁)
                             | some subfoldersUri =>
                                 recur subfoldersUri pandaFolderId db₁ fm₁) with
                      | .error er => .error er
                      | .ok (db₂, fm₂) =>
                          idxGoEntries recur goVid listResp postResp
                            pandaParentId rest db₂ fm₂

/-- A folder page in the `index.js` variant (fetched through `safeGet`,
hence the outer `Option`). -/
structure IdxFolderPage where
  data : Option (List FolderEntry)
  next : Option Url
  deriving DecidableEq, Repr

/-- The `do … while (url)` page loop of `processFolder` in `src/index.js`. -/
def idxGoFolderPages (fetchFolders : Url → Except JsErr (Option IdxFolderPage))
    (fetchVideos : Url → Except JsErr (Option IdxVideoPage))
    (listResp : Except JsErr (Option (List PandaFolder)))
    (postResp : String → Option String → Except JsErr (Option String)) :
    Nat → Url → Option String → DB → FolderMap → Except JsErr (DB × FolderMap)
  | 0, _, _, _, _ => .error .fuelOut
  | fuel + 1, url, pandaParentId, db, fm =>
      match fetchFolders url with
      | .error e => .error e
      | .ok none => .ok (db, fm)
      | .ok (some page) =>
          match page.data with
          | none => .ok (db, fm)
          | some entries =>
              match idxGoEntries
                  (fun subfoldersUri pandaFolderId db₀ fm₀ =>
                    idxGoFolderPages fetchFolders fetchVideos listResp postResp
                      fuel (subfoldersUri ++ "?per_page=100")
                      (some pandaFolderId) db₀ fm₀)
                  (fun e _pandaFolderId db₀ =>
                    idxProcessVideosInFolder fetchVideos fuel e db₀)
                  listResp postResp pandaParentId entries db fm with
              | .error e => .error e
              | .ok (db₁, fm₁) =>
                  match jsOrNull page.next with
                  | none => .ok (db₁, fm₁)
                  | some nxt =>
                      idxGoFolderPages fetchFolders fetchVideos listResp
                        postResp fuel nxt pandaParentId db₁ fm₁

/-- `run()` from `src/index.js`: wraps `processFolder(rootUri)` in
`try { … } catch (e) { console.error('Erro fatal:', e); }` — an error ends
the traversal for the rest of the run and is reported as fatal.  Returns the
fatal error, when any. -/
def idxRun (fetchFolders : Url → Except JsErr (Option IdxFolderPage))
    (fetchVideos : Url → Except JsErr (Option IdxVideoPage))
    (listResp : Except JsErr (Option (List PandaFolder)))
    (postResp : String → Option String → Except JsErr (Option String))
    (fuel : Nat) (rootUri : Url) : Option JsErr :=
  match idxGoFolderPages fetchFolders fetchVideos listResp postResp fuel
      (rootUri ++ "?per_page=100") none [] [] with
  | .error e => some e
  | .ok _ => none

/-! ## Helper predicates for the idempotence argument -/

/-- Key containment between two Mapping Store states. -/
def keysLe (db dbB : DB) : Prop :=
  ∀ u, vimeoVideoExists db u = true → vimeoVideoExists dbB u = true

/-- A video is settled for a store state when reconciling it again writes
nothing: its URI is malformed, or its normalized URL already has a row, or
the Panda title search (a pure environment function) finds nothing. -/
def settledVideo
    (pandaByTitle : String → String → Except JsErr (Option PandaVideo))
    (pandaFolderId : String) (db : DB) (v : VideoEntry) : Prop :=
  match formatVimeoUrl v.uri with
  | none => True
  | some url =>
      vimeoVideoExists db url = true ∨
        pandaByTitle pandaFolderId (jsOrStr v.name "sem título") = .ok none

/-! ## Concrete environments used by witnesses and counterexamples -/

/-- One-folder Source root used by the C1 witness. -/
def c1FetchF : Url → Except JsErr VmFolderPage := fun _ =>
  .ok ⟨some [⟨some "A", some "/folders/1", some "/folders/1/videos", none⟩], none⟩

/-- One-video folder listing used by the C1 witness. -/
def c1FetchV : Url → Except JsErr VmVideoPage := fun _ =>
  .ok ⟨some [⟨some "t1", "/videos/7"⟩], none⟩

/-- Target folder list used by the C1 witness. -/
def c1Folders : Except JsErr (Option (List PandaFolder)) :=
  .ok (some [⟨"P1", "A", none⟩])

/-- Title search used by the C1 witness: matches "t1". -/
def c1Lookup : String → String → Except JsErr (Option PandaVideo) := fun _ t =>
  if t = "t1" then .ok (some ⟨"ext7"⟩) else .ok none

/-- Video page used by the C4 counterexample: two well-formed videos, no
next page. -/
def c4FetchV : Url → Except JsErr VmVideoPage := fun _ =>
  .ok ⟨some [⟨some "a", "/videos/1"⟩, ⟨some "b", "/videos/2"⟩], none⟩

/-- Title search used by the C4 counterexample: the first video's lookup
fails with a RequestError (HTTP 500 after retries), the second would
match. -/
def c4Lookup : String → String → Except JsErr (Option PandaVideo) := fun _ t =>
  if t = "a" then .error (.axios (some 500) none)
  else .ok (some ⟨"extB"⟩)

/-- Attempt outcomes used by the C5 counterexample: HTTP 429 with
`retry-after: 2` on attempts 1 and 2, success on attempt 3. -/
def c5Res : Nat → AxiosOutcome := fun attempt =>
  if attempt ≤ 2 then .err (some 429) (some 2) none else .ok "body"

/-- Attempt outcomes used by the C5 witness: HTTP 429 with `retry-after: 2`
on attempt 0, success afterwards. -/
def c5WitRes : Nat → AxiosOutcome := fun attempt =>
  if attempt = 0 then .err (some 429) (some 2) none else .ok "b"

/-- Page environment used by the C7 witness: page "u0" has a next reference
and a present-but-empty data array, page "u1" terminates the sequence with
no next reference, page "u2" is missing its data array. -/
def c7FetchV : Url → Except JsErr VmVideoPage := fun u =>
  if u = "u0" then .ok ⟨some [], some "u1"⟩
  else if u = "u1" then .ok ⟨some [⟨some "t", "/videos/3"⟩], none⟩
  else .ok ⟨none, some "u9"⟩

/-- Title search used by the C7 witness: never matches. -/
def c7Lookup : String → String → Except JsErr (Option PandaVideo) := fun _ _ =>
  .ok none

/-- Video used by the C9 counterexample: its download array is nonempty and
one entry carries a link, but the widest entry's `link` is null, so the
computed `downloadUrl` is null and the video is skipped. -/
def c9CexVideo : IdxVideo :=
  ⟨some "t", none, "/videos/9", some [⟨some 9, none⟩, ⟨some 1, some "dl"⟩]⟩

/-- Second video used by the C9 counterexample: a width tie where only the
originally later entry has a link.  The stable sort keeps the first (link-
less) entry at `download[0]`, so the code skips this video as well. -/
def c9TieVideo : IdxVideo :=
  ⟨some "t", none, "/videos/9", some [⟨some 5, none⟩, ⟨some 5, some "x"⟩]⟩

/-- Video used by the C9 witness: its widest download entry carries a
link. -/
def c9LinkedVideo : IdxVideo :=
  ⟨some "t", none, "/videos/9", some [⟨some 9, some "dl"⟩]⟩

/-- Folder page used by the C9 witness: one folder with a videos
connection, plus a sibling folder that would follow it. -/
def c9FetchF : Url → Except JsErr (Option IdxFolderPage) := fun _ =>
  .ok (some ⟨some [⟨some "A", some "/folders/1", some "/folders/1/videos", none⟩,
                   ⟨some "B", some "/folders/2", none, none⟩], none⟩)

/-- Video page used by the C9 witness: contains the linked video. -/
def c9FetchV : Url → Except JsErr (Option IdxVideoPage) := fun _ =>
  .ok (some ⟨some [c9LinkedVideo], none⟩)

/-- Target folder listing used by the C9 witness. -/
def c9ListResp : Except JsErr (Option (List PandaFolder)) :=
  .ok (some [⟨"P1", "A", none⟩, ⟨"P2", "B", none⟩])

/-- Folder creation outcomes used by the C9 witness (never reached). -/
def c9PostResp : String → Option String → Except JsErr (Option String) :=
  fun _ _ => .ok (some "NEW")

/-! ## Store lemmas -/

theorem vimeoVideoExists_map_keyPreserving (f : VideoRow → VideoRow)
    (hf : ∀ r, (f r).vimeo_video_id = r.vimeo_video_id) (db : DB) (u : String) :
    vimeoVideoExists (db.map f) u = vimeoVideoExists db u := by
  induction db with
  | nil => rfl
  | cons r rest ih =>
      simp only [vimeoVideoExists, List.map_cons, List.any_cons] at *
      rw [hf r, ih]

theorem vimeoVideoExists_append (db : DB) (r : VideoRow) (u : String) :
    vimeoVideoExists (db ++ [r]) u =
      (vimeoVideoExists db u || (r.vimeo_video_id == u)) := by
  simp [vimeoVideoExists, List.any_append]

theorem vimeoVideoExists_upsertLinksRow (db : DB) (url p t : String)
    (now : Nat) (u : String) :
    vimeoVideoExists (upsertLinksRow db url p t now) u =
      (vimeoVideoExists db u || (url == u)) := by
  unfold upsertLinksRow
  by_cases h : vimeoVideoExists db url
  · rw [if_pos h, vimeoVideoExists_map_keyPreserving]
    · cases heq : (url == u) with
      | false => simp
      | true =>
          have hu : url = u := by simpa [beq_iff_eq] using heq
          subst hu
          simp [h]
    · intro r
      by_cases hr : (r.vimeo_video_id == url) <;> simp [hr]
  · rw [if_neg h, vimeoVideoExists_append]

theorem keysLe_refl (db : DB) : keysLe db db := fun _ h => h

theorem keysLe_trans {a b c : DB} (h₁ : keysLe a b) (h₂ : keysLe b c) :
    keysLe a c := fun u hu => h₂ u (h₁ u hu)

/-! ## Per-video lemmas -/

theorem processVideo_keysLe
    {pandaByTitle : String → String → Except JsErr (Option PandaVideo)}
    {pandaFolderId : String} {now : Nat} {db : DB} {v : VideoEntry}
    {db₁ : DB} {w c : Nat}
    (h : processVideo pandaByTitle pandaFolderId now db v = .ok (db₁, w, c)) :
    keysLe db db₁ := by
  unfold processVideo at h
  split at h
  · cases h; exact keysLe_refl db
  · split at h
    · cases h; exact keysLe_refl db
    · split at h
      · cases h
      · cases h
        intro u hu
        rw [vimeoVideoExists_upsertLinksRow, hu]
        rfl
      · cases h; exact keysLe_refl db

theorem processVideo_settles
    {pandaByTitle : String → String → Except JsErr (Option PandaVideo)}
    {pandaFolderId : String} {now : Nat} {db : DB} {v : VideoEntry}
    {db₁ : DB} {w c : Nat}
    (h : processVideo pandaByTitle pandaFolderId now db v = .ok (db₁, w, c)) :
    settledVideo pandaByTitle pandaFolderId db₁ v := by
  unfold processVideo at h
  unfold settledVideo
  split at h
  · trivial
  · next url heq =>
      split at h
      · next hex => cases h; exact Or.inl hex
      · split at h
        · cases h
        · next hlook =>
            cases h
            refine Or.inl ?_
            rw [vimeoVideoExists_upsertLinksRow]
            simp
        · next hlook => cases h; exact Or.inr hlook

theorem settledVideo_mono
    {pandaByTitle : String → String → Except JsErr (Option PandaVideo)}
    {pandaFolderId : String} {db dbB : DB} {v : VideoEntry}
    (hle : keysLe db dbB)
    (h : settledVideo pandaByTitle pandaFolderId db v) :
    settledVideo pandaByTitle pandaFolderId dbB v := by
  unfold settledVideo at *
  split at h
  · trivial
  · next url heq =>
      rcases h with h | h
      · exact Or.inl (hle url h)
      · exact Or.inr h

theorem settledVideo_noop
    {pandaByTitle : String → String → Except JsErr (Option PandaVideo)}
    {pandaFolderId : String} {db : DB} {v : VideoEntry} (now : Nat)
    (h : settledVideo pandaByTitle pandaFolderId db v) :
    ∃ c, processVideo pandaByTitle pandaFolderId now db v = .ok (db, 0, c) := by
  unfold settledVideo at h
  unfold processVideo
  split at h
  · next heq => exact ⟨0, by simp [heq]⟩
  · next url heq =>
      by_cases hex : vimeoVideoExists db url
      · exact ⟨0, by simp [heq, hex]⟩
      · rcases h with h | h
        · exact absurd h hex
        · exact ⟨1, by simp [heq, hex, h]⟩

/-! ## Video-list and page lemmas -/

theorem processVideoList_keysLe
    {pandaByTitle : String → String → Except JsErr (Option PandaVideo)}
    {pandaFolderId : String} {now : Nat} {videos : List VideoEntry}
    {db db₁ : DB} {w : Nat}
    (h : processVideoList pandaByTitle pandaFolderId now videos db =
      .ok (db₁, w)) : keysLe db db₁ := by
  induction videos generalizing db w with
  | nil => cases h; exact keysLe_refl _
  | cons v rest ih =>
      unfold processVideoList at h
      split at h
      · cases h
      · next hv =>
          split at h
          · cases h
          · next hrest =>
              cases h
              exact keysLe_trans (processVideo_keysLe hv) (ih hrest)

theorem processVideoList_settles
    {pandaByTitle : String → String → Except JsErr (Option PandaVideo)}
    {pandaFolderId : String} {now : Nat} {videos : List VideoEntry}
    {db db₁ : DB} {w : Nat}
    (h : processVideoList pandaByTitle pandaFolderId now videos db =
      .ok (db₁, w)) :
    ∀ v ∈ videos, settledVideo pandaByTitle pandaFolderId db₁ v := by
  induction videos generalizing db w with
  | nil => intro v hv; cases hv
  | cons v rest ih =>
      unfold processVideoList at h
      split at h
      · cases h
      · next hv =>
          split at h
          · cases h
          · next hrest =>
              cases h
              intro x hx
              rcases List.mem_cons.mp hx with rfl | hx
              · exact settledVideo_mono (processVideoList_keysLe hrest)
                  (processVideo_settles hv)
              · exact ih hrest x hx

theorem processVideoList_noop
    {pandaByTitle : String → String → Except JsErr (Option PandaVideo)}
    {pandaFolderId : String} {db : DB} (now : Nat) {videos : List VideoEntry}
    (h : ∀ v ∈ videos, settledVideo pandaByTitle pandaFolderId db v) :
    processVideoList pandaByTitle pandaFolderId now videos db = .ok (db, 0) := by
  induction videos with
  | nil => rfl
  | cons v rest ih =>
      obtain ⟨c, hv⟩ := settledVideo_noop now (h v (List.mem_cons_self v rest))
      have hrest := ih (fun x hx => h x (List.mem_cons_of_mem v hx))
      unfold processVideoList
      simp [hv, hrest]

theorem goVideoPages_keysLe
    {fetchVideos : Url → Except JsErr VmVideoPage}
    {pandaByTitle : String → String → Except JsErr (Option PandaVideo)}
    {pandaFolderId : String} {now : Nat} {fuel : Nat} {url : Url}
    {db db₁ : DB} {w : Nat}
    (h : goVideoPages fetchVideos pandaByTitle pandaFolderId now fuel url db =
      .ok (db₁, w)) : keysLe db db₁ := by
  induction fuel generalizing url db w with
  | zero => cases h
  | succ n ih =>
      unfold goVideoPages at h
      split at h
      · cases h
      · split at h
        · cases h; exact keysLe_refl _
        · split at h
          · cases h
          · next hvids =>
              split at h
              · cases h; exact processVideoList_keysLe hvids
              · split at h
                · cases h
                · next hnext =>
                    cases h
                    exact keysLe_trans (processVideoList_keysLe hvids) (ih hnext)

theorem goVideoPages_rerun
    {fetchVideos : Url → Except JsErr VmVideoPage}
    {pandaByTitle : String → String → Except JsErr (Option PandaVideo)}
    {pandaFolderId : String} {now : Nat} {fuel : Nat} {url : Url}
    {db db₁ : DB} {w : Nat}
    (h : goVideoPages fetchVideos pandaByTitle pandaFolderId now fuel url db =
      .ok (db₁, w)) :
    ∀ dbB, keysLe db₁ dbB →
      goVideoPages fetchVideos pandaByTitle pandaFolderId now fuel url dbB =
        .ok (dbB, 0) := by
  induction fuel generalizing url db db₁ w with
  | zero => cases h
  | succ n ih =>
      intro dbB hle
      unfold goVideoPages at h ⊢
      split at h
      · cases h
      · split at h
        · cases h; rfl
        · next videos hdata =>
            split at h
            · cases h
            · next hvids =>
                have hsettled : ∀ v ∈ videos,
                    settledVideo pandaByTitle pandaFolderId dbB v := by
                  intro v hv
                  split at h
                  · cases h
                    exact settledVideo_mono hle (processVideoList_settles hvids v hv)
                  · split at h
                    · cases h
                    · next hnext =>
                        cases h
                        exact settledVideo_mono
                          (keysLe_trans (goVideoPages_keysLe hnext) hle)
                          (processVideoList_settles hvids v hv)
                rw [processVideoList_noop now hsettled]
                split at h
                · cases h; rfl
                · split at h
                  · cases h
                  · next hnext =>
                      cases h
                      rw [ih hnext dbB hle]

/-! ## Folder-level lemmas -/

theorem processVideosInFolder_keysLe
    {fetchVideos : Url → Except JsErr VmVideoPage}
    {pandaByTitle : String → String → Except JsErr (Option PandaVideo)}
    {now fuel : Nat} {e : FolderEntry} {pandaFolderId : String}
    {db db₁ : DB} {w : Nat}
    (h : processVideosInFolder fetchVideos pandaByTitle now fuel e
      pandaFolderId db = .ok (db₁, w)) : keysLe db db₁ := by
  unfold processVideosInFolder at h
  split at h
  · cases h; exact keysLe_refl _
  · exact goVideoPages_keysLe h

theorem processVideosInFolder_rerun
    {fetchVideos : Url → Except JsErr VmVideoPage}
    {pandaByTitle : String → String → Except JsErr (Option PandaVideo)}
    {now fuel : Nat} {e : FolderEntry} {pandaFolderId : String}
    {db db₁ : DB} {w : Nat}
    (h : processVideosInFolder fetchVideos pandaByTitle now fuel e
      pandaFolderId db = .ok (db₁, w)) :
    ∀ dbB, keysLe db₁ dbB →
      processVideosInFolder fetchVideos pandaByTitle now fuel e
        pandaFolderId dbB = .ok (dbB, 0) := by
  intro dbB hle
  unfold processVideosInFolder at h ⊢
  split at h
  · cases h; rfl
  · exact goVideoPages_rerun h dbB hle

theorem goEntries_keysLe
    {recur : Url → String → DB → Except JsErr (DB × Nat)}
    {goVid : FolderEntry → String → DB → Except JsErr (DB × Nat)}
    {foldersResp : Except JsErr (Option (List PandaFolder))}
    {pandaParentId : Option String}
    (HrK : ∀ u pid db db₁ w, recur u pid db = .ok (db₁, w) → keysLe db db₁)
    (HvK : ∀ e pid db db₁ w, goVid e pid db = .ok (db₁, w) → keysLe db db₁)
    {entries : List FolderEntry} {db db₁ : DB} {w : Nat}
    (h : goEntries recur goVid foldersResp pandaParentId entries db =
      .ok (db₁, w)) : keysLe db db₁ := by
  induction entries generalizing db db₁ w with
  | nil => cases h; exact keysLe_refl _
  | cons e rest ih =>
      unfold goEntries at h
      split at h
      · exact ih h
      · split at h
        · cases h
        · split at h
          · exact ih h
          · split at h
            · cases h
            · next hvid =>
                split at h
                · cases h
                · next hsub =>
                    split at h
                    · cases h
                    · next hrest =>
                        cases h
                        refine keysLe_trans (HvK _ _ _ _ _ hvid)
                          (keysLe_trans ?_ (ih hrest))
                        revert hsub
                        split
                        · intro hsub; cases hsub; exact keysLe_refl _
                        · intro hsub; exact HrK _ _ _ _ _ hsub

theorem goEntries_rerun
    {recur : Url → String → DB → Except JsErr (DB × Nat)}
    {goVid : FolderEntry → String → DB → Except JsErr (DB × Nat)}
    {foldersResp : Except JsErr (Option (List PandaFolder))}
    {pandaParentId : Option String}
    (HrK : ∀ u pid db db₁ w, recur u pid db = .ok (db₁, w) → keysLe db db₁)
    (HvK : ∀ e pid db db₁ w, goVid e pid db = .ok (db₁, w) → keysLe db db₁)
    (HrR : ∀ u pid db db₁ w, recur u pid db = .ok (db₁, w) →
      ∀ dbB, keysLe db₁ dbB → recur u pid dbB = .ok (dbB, 0))
    (HvR : ∀ e pid db db₁ w, goVid e pid db = .ok (db₁, w) →
      ∀ dbB, keysLe db₁ dbB → goVid e pid dbB = .ok (dbB, 0))
    {entries : List FolderEntry} {db db₁ : DB} {w : Nat}
    (h : goEntries recur goVid foldersResp pandaParentId entries db =
      .ok (db₁, w)) :
    ∀ dbB, keysLe db₁ dbB →
      goEntries recur goVid foldersResp pandaParentId entries dbB =
        .ok (dbB, 0) := by
  induction entries generalizing db db₁ w with
  | nil => intro dbB hle; cases h; rfl
  | cons e rest ih =>
      intro dbB hle
      unfold goEntries at h ⊢
      split at h
      · exact ih h dbB hle
      · split at h
        · cases h
        · split at h
          · exact ih h dbB hle
          · next pid hpid =>
              split at h
              · cases h
              · next dbA wA hvid =>
                  split at h
                  · cases h
                  · next db₂ w₂ hsub =>
                      split at h
                      · cases h
                      · next hrest =>
                          cases h
                          have hA2 : keysLe dbA db₂ := by
                            revert hsub
                            split
                            · intro hsub; cases hsub; exact keysLe_refl _
                            · intro hsub; exact HrK _ _ _ _ _ hsub
                          have h2B : keysLe db₂ dbB :=
                            keysLe_trans (goEntries_keysLe HrK HvK hrest) hle
                          have hsubB : (match jsOrNull e.itemsUri with
                              | none => Except.ok (dbB, 0)
                              | some subfoldersUri =>
                                  recur subfoldersUri pid dbB) =
                              Except.ok (dbB, 0) := by
                            revert hsub
                            split
                            · intro _; rfl
                            · intro hsub; exact HrR _ _ _ _ _ hsub dbB h2B
                          simp only [HvR _ _ _ _ _ hvid dbB
                            (keysLe_trans hA2 h2B), hsubB, ih hrest dbB hle]

theorem goFolderPages_keysLe
    {fetchFolders : Url → Except JsErr VmFolderPage}
    {fetchVideos : Url → Except JsErr VmVideoPage}
    {foldersResp : Except JsErr (Option (List PandaFolder))}
    {pandaByTitle : String → String → Except JsErr (Option PandaVideo)}
    {now : Nat} {fuel : Nat} {url : Url} {pandaParentId : Option String}
    {db db₁ : DB} {w : Nat}
    (h : goFolderPages fetchFolders fetchVideos foldersResp pandaByTitle now
      fuel url pandaParentId db = .ok (db₁, w)) : keysLe db db₁ := by
  induction fuel generalizing url pandaParentId db db₁ w with
  | zero => cases h
  | succ n ih =>
      unfold goFolderPages at h
      split at h
      · cases h
      · split at h
        · cases h; exact keysLe_refl _
        · split at h
          · cases h
          · next dbE wE hentries =>
              have hE : keysLe db dbE :=
                goEntries_keysLe
                  (fun _ _ _ _ _ hh => ih hh)
                  (fun _ _ _ _ _ hh => processVideosInFolder_keysLe hh)
                  hentries
              split at h
              · cases h; exact hE
              · split at h
                · cases h
                · next hnext =>
                    cases h
                    exact keysLe_trans hE (ih hnext)

theorem goFolderPages_rerun
    {fetchFolders : Url → Except JsErr VmFolderPage}
    {fetchVideos : Url → Except JsErr VmVideoPage}
    {foldersResp : Except JsErr (Option (List PandaFolder))}
    {pandaByTitle : String → String → Except JsErr (Option PandaVideo)}
    {now : Nat} {fuel : Nat} {url : Url} {pandaParentId : Option String}
    {db db₁ : DB} {w : Nat}
    (h : goFolderPages fetchFolders fetchVideos foldersResp pandaByTitle now
      fuel url pandaParentId db = .ok (db₁, w)) :
    ∀ dbB, keysLe db₁ dbB →
      goFolderPages fetchFolders fetchVideos foldersResp pandaByTitle now
        fuel url pandaParentId dbB = .ok (dbB, 0) := by
  induction fuel generalizing url pandaParentId db db₁ w with
  | zero => cases h
  | succ n ih =>
      intro dbB hle
      unfold goFolderPages at h ⊢
      split at h
      · cases h
      · split at h
        · cases h; rfl
        · split at h
          · cases h
          · next dbE wE hentries =>
              have HrK : ∀ u pid d d₁ ww,
                  goFolderPages fetchFolders fetchVideos foldersResp
                    pandaByTitle now n (u ++ "?per_page=50") (some pid) d =
                    .ok (d₁, ww) → keysLe d d₁ :=
                fun _ _ _ _ _ hh => goFolderPages_keysLe hh
              have HvK : ∀ e pid d d₁ ww,
                  processVideosInFolder fetchVideos pandaByTitle now n e pid d =
                    .ok (d₁, ww) → keysLe d d₁ :=
                fun _ _ _ _ _ hh => processVideosInFolder_keysLe hh
              have HrR : ∀ u pid d d₁ ww,
                  goFolderPages fetchFolders fetchVideos foldersResp
                    pandaByTitle now n (u ++ "?per_page=50") (some pid) d =
                    .ok (d₁, ww) →
                  ∀ dbC, keysLe d₁ dbC →
                    goFolderPages fetchFolders fetchVideos foldersResp
                      pandaByTitle now n (u ++ "?per_page=50") (some pid) dbC =
                      .ok (dbC, 0) :=
                fun _ _ _ _ _ hh dbC hc => ih hh dbC hc
              have HvR : ∀ e pid d d₁ ww,
                  processVideosInFolder fetchVideos pandaByTitle now n e pid d =
                    .ok (d₁, ww) →
                  ∀ dbC, keysLe d₁ dbC →
                    processVideosInFolder fetchVideos pandaByTitle now n e pid
                      dbC = .ok (dbC, 0) :=
                fun _ _ _ _ _ hh dbC hc => processVideosInFolder_rerun hh dbC hc
              split at h
              · cases h
                simp only [goEntries_rerun HrK HvK HrR HvR hentries dbB hle]
              · split at h
                · cases h
                · next hnext =>
                    cases h
                    simp only [goEntries_rerun HrK HvK HrR HvR hentries dbB
                      (keysLe_trans (goFolderPages_keysLe hnext) hle),
                      ih hnext dbB hle]

/-! ## Claim theorems -/

/-- C1: in `src/getVimeoPandaLinks.js`, a Source video whose derived
`sourceVideoRef` already has a Mapping Store row (in particular one with a
non-null `targetVideoId`) is short-circuited by the `vimeoVideoExists` fast
path: no remote Panda call, no store write, store unchanged.  Consequently a
second `processFolder` mirror run over unchanged Source and Target data
(the same pure environment functions) starting from the store produced by a
successful first run performs zero Mapping Store writes and leaves the
store unchanged. -/
theorem c1_fast_path_and_second_run_writes_nothing :
    (∀ (pandaByTitle : String → String → Except JsErr (Option PandaVideo))
        (pandaFolderId : String) (now : Nat) (db : DB) (v : VideoEntry)
        (url : String) (row : VideoRow),
        formatVimeoUrl v.uri = some url →
        row ∈ db → row.vimeo_video_id = url → row.panda_video_id ≠ none →
        processVideo pandaByTitle pandaFolderId now db v = .ok (db, 0, 0)) ∧
    (∀ (fetchFolders : Url → Except JsErr VmFolderPage)
        (fetchVideos : Url → Except JsErr VmVideoPage)
        (foldersResp : Except JsErr (Option (List PandaFolder)))
        (pandaByTitle : String → String → Except JsErr (Option PandaVideo))
        (now fuel : Nat) (vimeoFolderUri : Url)
        (pandaParentId : Option String) (db db₁ : DB) (w : Nat),
        processFolder fetchFolders fetchVideos foldersResp pandaByTitle now
          fuel vimeoFolderUri pandaParentId db = .ok (db₁, w) →
        processFolder fetchFolders fetchVideos foldersResp pandaByTitle now
          fuel vimeoFolderUri pandaParentId db₁ = .ok (db₁, 0)) := by
  constructor
  · intro pandaByTitle pandaFolderId now db v url row hfmt hmem hkey _hnn
    have hex : vimeoVideoExists db url = true := by
      unfold vimeoVideoExists
      rw [List.any_eq_true]
      exact ⟨row, hmem, by simp [hkey]⟩
    unfold processVideo
    simp [hfmt, hex]
  · intro fetchFolders fetchVideos foldersResp pandaByTitle now fuel uri
      parent db db₁ w h
    unfold processFolder at h ⊢
    exact goFolderPages_rerun h db₁ (keysLe_refl db₁)

/-- C1 witness: a concrete one-folder, one-video mirror whose first run
writes one row; the theorem yields that the fast path skips the video and
the second run writes nothing. -/
theorem c1_witness :
    processVideo c1Lookup "P1" 0
      [⟨"https://player.vimeo.com/video/7",
        some "https://player-vz-4cab7bf9-47f.tv.pandavideo.com.br/embed/?v=ext7",
        none, some "t1", 0⟩] ⟨some "t1", "/videos/7"⟩ =
      .ok ([⟨"https://player.vimeo.com/video/7",
        some "https://player-vz-4cab7bf9-47f.tv.pandavideo.com.br/embed/?v=ext7",
        none, some "t1", 0⟩], 0, 0) ∧
    processFolder c1FetchF c1FetchV c1Folders c1Lookup 0 3 "/root" none
      [⟨"https://player.vimeo.com/video/7",
        some "https://player-vz-4cab7bf9-47f.tv.pandavideo.com.br/embed/?v=ext7",
        none, some "t1", 0⟩] =
      .ok ([⟨"https://player.vimeo.com/video/7",
        some "https://player-vz-4cab7bf9-47f.tv.pandavideo.com.br/embed/?v=ext7",
        none, some "t1", 0⟩], 0) :=
  ⟨c1_fast_path_and_second_run_writes_nothing.1 c1Lookup "P1" 0 _ _
      "https://player.vimeo.com/video/7" _ rfl (List.mem_singleton_self _) rfl
      (by simp),
   c1_fast_path_and_second_run_writes_nothing.2 c1FetchF c1FetchV c1Folders
      c1Lookup 0 3 "/root" none [] _ 1 rfl⟩

/-! ## Upsert-law lemmas (C2) -/

theorem countKey_map_keyPreserving (f : VideoRow → VideoRow)
    (hf : ∀ r, (f r).vimeo_video_id = r.vimeo_video_id) (db : DB)
    (u : String) : countKey (db.map f) u = countKey db u := by
  induction db with
  | nil => rfl
  | cons r rest ih =>
      simp only [countKey, List.map_cons, List.filter_cons] at *
      rw [hf r]
      by_cases hr : (r.vimeo_video_id == u) = true
      · simp [hr, ih]
      · simp only [eq_false_of_ne_true hr]
        simpa using ih

theorem countKey_append_one (db : DB) (r : VideoRow) (u : String)
    (hr : r.vimeo_video_id = u) :
    countKey (db ++ [r]) u = countKey db u + 1 := by
  simp [countKey, List.filter_append, hr]

theorem countKey_eq_zero_of_not_exists {db : DB} {u : String}
    (h : vimeoVideoExists db u = false) : countKey db u = 0 := by
  induction db with
  | nil => rfl
  | cons r rest ih =>
      simp only [vimeoVideoExists, List.any_cons, Bool.or_eq_false_iff] at h
      simp only [countKey, List.filter_cons, h.1]
      exact ih (by simpa [vimeoVideoExists] using h.2)

theorem countKey_pos_of_exists {db : DB} {u : String}
    (h : vimeoVideoExists db u = true) : 1 ≤ countKey db u := by
  induction db with
  | nil => cases h
  | cons r rest ih =>
      simp only [vimeoVideoExists, List.any_cons, Bool.or_eq_true] at h
      simp only [countKey, List.filter_cons]
      rcases h with h | h
      · simp [h, Nat.succ_le_succ_iff]
      · have := ih (by simpa [vimeoVideoExists] using h)
        by_cases hr : (r.vimeo_video_id == u) = true
        · simp [hr]
        · simp only [eq_false_of_ne_true hr]
          simpa [countKey] using this

theorem upsertMappingRow_countKey {db : DB} {url : String}
    {p w t : Option String} {n : Nat} (h : countKey db url ≤ 1) :
    countKey (upsertMappingRow db url p w t n) url = 1 := by
  unfold upsertMappingRow
  by_cases hex : vimeoVideoExists db url
  · rw [if_pos hex, countKey_map_keyPreserving]
    · exact Nat.le_antisymm h (countKey_pos_of_exists hex)
    · intro r
      by_cases hr : (r.vimeo_video_id == url) = true <;> simp [hr]
  · rw [if_neg hex, countKey_append_one db _ url rfl,
      countKey_eq_zero_of_not_exists (Bool.eq_false_iff.mpr hex)]

theorem upsertMappingRow_rows {db : DB} {url : String} {p w t : Option String}
    {n : Nat} :
    ∀ r ∈ upsertMappingRow db url p w t n, r.vimeo_video_id = url →
      r = ⟨url, p, w, t, n⟩ := by
  intro r hr hkey
  unfold upsertMappingRow at hr
  by_cases hex : vimeoVideoExists db url
  · rw [if_pos hex] at hr
    obtain ⟨r₀, _hr₀, rfl⟩ := List.mem_map.mp hr
    by_cases h₀ : (r₀.vimeo_video_id == url) = true
    · have hk : r₀.vimeo_video_id = url := by simpa using h₀
      cases r₀
      simp_all
    · simp only [eq_false_of_ne_true h₀, if_false] at hkey ⊢
      exact absurd (by simpa using hkey) (by simpa using h₀)
  · rw [if_neg hex] at hr
    rcases List.mem_append.mp hr with hmem | hmem
    · have : vimeoVideoExists db url = true := by
        unfold vimeoVideoExists
        rw [List.any_eq_true]
        exact ⟨r, hmem, by simp [hkey]⟩
      exact absurd this hex
    · simpa using hmem

/-- C2: `saveVideoMapping` has upsert semantics: writing the same
`sourceVideoRef` key twice (with different `targetVideoId` values) leaves
exactly one row for that key, holding the latest `panda_video_id`,
`panda_websocket_url`, `title` and `updated_at`, and never creates a second
row. -/
theorem c2_upsert_overwrites_single_row :
    ∀ (db : DB) (uri url : String) (p₁ w₁ t₁ : Option String) (n₁ : Nat)
      (p₂ w₂ t₂ : Option String) (n₂ : Nat) (db₁ db₂ : DB),
      formatVimeoUrlIdx uri = .ok url →
      countKey db url ≤ 1 →
      p₁ ≠ p₂ →
      saveVideoMapping db uri p₁ w₁ t₁ n₁ = .ok db₁ →
      saveVideoMapping db₁ uri p₂ w₂ t₂ n₂ = .ok db₂ →
      countKey db₂ url = 1 ∧
        ∀ r ∈ db₂, r.vimeo_video_id = url → r = ⟨url, p₂, w₂, t₂, n₂⟩ := by
  intro db uri url p₁ w₁ t₁ n₁ p₂ w₂ t₂ n₂ db₁ db₂ hfmt hcount _hne h₁ h₂
  unfold saveVideoMapping at h₁ h₂
  rw [hfmt] at h₁ h₂
  cases h₁
  cases h₂
  refine ⟨upsertMappingRow_countKey (Nat.le_of_eq (upsertMappingRow_countKey hcount)), ?_⟩
  exact upsertMappingRow_rows

/-- C2 witness: writing key `/videos/1` twice into an empty store with
different target ids leaves exactly the second row. -/
theorem c2_witness :
    countKey (upsertMappingRow (upsertMappingRow []
        "https://player.vimeo.com/video/1" (some "pA") none (some "t") 1)
        "https://player.vimeo.com/video/1" (some "pB") (some "ws") (some "t")
        2) "https://player.vimeo.com/video/1" = 1 ∧
    ∀ r ∈ (upsertMappingRow (upsertMappingRow []
        "https://player.vimeo.com/video/1" (some "pA") none (some "t") 1)
        "https://player.vimeo.com/video/1" (some "pB") (some "ws") (some "t")
        2), r.vimeo_video_id = "https://player.vimeo.com/video/1" →
      r = ⟨"https://player.vimeo.com/video/1", some "pB", some "ws", some "t",
           2⟩ :=
  c2_upsert_overwrites_single_row [] "/videos/1"
    "https://player.vimeo.com/video/1" (some "pA") none (some "t") 1
    (some "pB") (some "ws") (some "t") 2 _ _ rfl (by decide)
    (by simp) rfl rfl

theorem jsOrNull_none : jsOrNull none = none := rfl

theorem jsOrNull_some {s : String} (h : s ≠ "") : jsOrNull (some s) = some s := by
  simp [jsOrNull, h]

/-- C3 (bug evaluation): when every attempt returns HTTP 429, the 429 branch
of `safeGet`/`safePost` `continue`s past the final-attempt `throw` guard, so
the loop exhausts and the call resolves with `undefined` — neither a
successful body nor a raised error reaches the caller.  `axiosVimeoRetry`,
by contrast, throws its exhaustion error after the loop, as the claim
states. -/
theorem c3_safeget_429_exhaustion_returns_undefined :
    safeGet (fun _ => .err (some 429) (some 1) none) 3 =
      (.ok none, [1000, 1000, 1000]) ∧
    safePost (fun _ => .err (some 429) (some 1) none) 3 =
      (.ok none, [1000, 1000, 1000]) ∧
    axiosVimeoRetry (fun _ => .err (some 429) (some 1) none) 5 =
      (.error .exhausted, [1000, 2000, 3000, 4000, 5000]) :=
  ⟨rfl, rfl, rfl⟩

/-- C4 counterexample: a per-video RequestError (here HTTP 500 from the
Panda title search) makes the whole video-page loop fail instead of
skipping the item: the result is an error, even though the sibling video
"b" would have matched and been written.  The claimed
"skip this item, log, continue with siblings" behaviour does not hold. -/
theorem c4_request_error_aborts_traversal_cex :
    goVideoPages c4FetchV c4Lookup "P1" 0 1 "u" [] =
      .error (.axios (some 500) none) ∧
    c4Lookup "P1" "b" = .ok (some ⟨"extB"⟩) :=
  ⟨rfl, rfl⟩

/-- C4 amended: in `src/getVimeoPandaLinks.js` a RequestError raised while
reconciling a video propagates out of the per-item loop (the remaining
siblings are not reached), and an entry whose Panda folder resolution
errors or whose video processing errors likewise aborts the folder loop;
the only per-item skips are entries with a falsy URI and entries whose
Panda folder is not found, which continue with the siblings unchanged. -/
theorem c4_amended_skip_vs_propagate :
    (∀ (pandaByTitle : String → String → Except JsErr (Option PandaVideo))
        (pandaFolderId : String) (now : Nat) (db : DB) (v : VideoEntry)
        (rest : List VideoEntry) (e : JsErr),
        processVideo pandaByTitle pandaFolderId now db v = .error e →
        processVideoList pandaByTitle pandaFolderId now (v :: rest) db =
          .error e) ∧
    (∀ (recur : Url → String → DB → Except JsErr (DB × Nat))
        (goVid : FolderEntry → String → DB → Except JsErr (DB × Nat))
        (foldersResp : Except JsErr (Option (List PandaFolder)))
        (pandaParentId : Option String) (e : FolderEntry)
        (rest : List FolderEntry) (db : DB) (u : String),
        jsOrNull e.uri = some u →
        findPandaFolder foldersResp (jsOrStr e.name "sem nome")
          pandaParentId = .ok none →
        goEntries recur goVid foldersResp pandaParentId (e :: rest) db =
          goEntries recur goVid foldersResp pandaParentId rest db) ∧
    (∀ (recur : Url → String → DB → Except JsErr (DB × Nat))
        (goVid : FolderEntry → String → DB → Except JsErr (DB × Nat))
        (foldersResp : Except JsErr (Option (List PandaFolder)))
        (pandaParentId : Option String) (e : FolderEntry)
        (rest : List FolderEntry) (db : DB) (u pid : String) (er : JsErr),
        jsOrNull e.uri = some u →
        findPandaFolder foldersResp (jsOrStr e.name "sem nome")
          pandaParentId = .ok (some pid) →
        pid ≠ "" →
        goVid e pid db = .error er →
        goEntries recur goVid foldersResp pandaParentId (e :: rest) db =
          .error er) := by
  refine ⟨?_, ?_, ?_⟩
  · intro pandaByTitle pandaFolderId now db v rest e h
    unfold processVideoList
    simp [h]
  · intro recur goVid foldersResp pandaParentId e rest db u hu hfind
    conv_lhs => rw [goEntries]
    simp [hu, hfind, jsOrNull_none]
  · intro recur goVid foldersResp pandaParentId e rest db u pid er hu hfind
      hpid hvid
    conv_lhs => rw [goEntries]
    simp [hu, hfind, jsOrNull_some hpid, hvid]

/-- C4 witness: concrete instances of the skip and the propagation
behaviour. -/
theorem c4_witness :
    processVideoList c4Lookup "P1" 0
      [⟨some "a", "/videos/1"⟩, ⟨some "b", "/videos/2"⟩] [] =
      .error (.axios (some 500) none) ∧
    goEntries (fun _ _ d => Except.ok (d, 0)) (fun _ _ _ => Except.error
        (.axios (some 500) none)) (.ok (some [])) none
      [⟨some "A", some "/folders/1", none, none⟩] [] =
      goEntries (fun _ _ d => Except.ok (d, 0)) (fun _ _ _ => Except.error
        (.axios (some 500) none)) (.ok (some [])) none [] [] ∧
    goEntries (fun _ _ d => Except.ok (d, 0)) (fun _ _ _ => Except.error
        (.axios (some 500) none)) (.ok (some [⟨"P1", "A", none⟩])) none
      [⟨some "A", some "/folders/1", none, none⟩] [] =
      .error (.axios (some 500) none) :=
  ⟨c4_amended_skip_vs_propagate.1 c4Lookup "P1" 0 [] ⟨some "a", "/videos/1"⟩
      [⟨some "b", "/videos/2"⟩] (.axios (some 500) none) rfl,
   c4_amended_skip_vs_propagate.2.1 _ _ (.ok (some [])) none
      ⟨some "A", some "/folders/1", none, none⟩ [] [] "/folders/1" rfl rfl,
   c4_amended_skip_vs_propagate.2.2 _ _ (.ok (some [⟨"P1", "A", none⟩])) none
      ⟨some "A", some "/folders/1", none, none⟩ [] [] "/folders/1" "P1"
      (.axios (some 500) none) rfl rfl (by simp) rfl⟩

/-- C5 counterexample: in `safeGet`, a 429 carrying `retry-after: 2` on
attempts 1 and 2 produces waits of exactly 2000 ms each — the second wait is
not multiplied by its attempt index 2, contradicting "waits at least 2
seconds times the attempt index" (2 s × 2 = 4000 ms > 2000 ms). -/
theorem c5_retry_after_not_scaled_cex :
    safeGet c5Res 3 = (.ok (some "body"), [2000, 2000]) ∧
    ¬ (2 * 1000 * 2 ≤ 2000) :=
  ⟨rfl, by decide⟩

/-- C5 amended: on HTTP 429, `axiosVimeoRetry` waits
`(retry-after, default 5) × 1000 × (attempt + 1)` — escalating with the
attempt index — while `safeGet`/`safePost` wait `retry-after × 1000` when
the header is present (not scaled by the attempt index) and `2000 × attempt`
otherwise; in both loops a 429 consumes the same attempt counter as any
other retried failure, and a 429 followed by a success returns the success
without surfacing an error. -/
theorem c5_amended_wait_computation :
    (∀ (res : Nat → AxiosOutcome) (remaining attempt : Nat)
        (ra : Option Nat) (code : Option String),
        res attempt = .err (some 429) ra code →
        (axiosVimeoRetryAux res (remaining + 1) attempt).2.head? =
          some (ra.getD 5 * 1000 * (attempt + 1))) ∧
    (∀ (res : Nat → AxiosOutcome) (remaining attempt : Nat)
        (ra : Option Nat) (code : Option String),
        res attempt = .err (some 429) ra code →
        (safeRequestAux res (remaining + 1) attempt).2.head? =
          some (match ra with
                | some s => s * 1000
                | none => 2000 * attempt)) ∧
    (∀ (ra : Nat) (body : String) (res : Nat → AxiosOutcome),
        res 0 = .err (some 429) (some ra) none → res 1 = .ok body →
        axiosVimeoRetry res 5 = (.ok body, [ra * 1000 * 1])) := by
  refine ⟨?_, ?_, ?_⟩
  · intro res remaining attempt ra code h
    unfold axiosVimeoRetryAux
    simp [h]
  · intro res remaining attempt ra code h
    unfold safeRequestAux
    simp [h]
  · intro ra body res h0 h1
    unfold axiosVimeoRetry axiosVimeoRetryAux
    simp [h0]
    unfold axiosVimeoRetryAux
    simp [h1]

/-- C5 witness: concrete applications of all three amended conjuncts. -/
theorem c5_witness :
    (axiosVimeoRetryAux c5WitRes 5 0).2.head? = some 2000 ∧
    (safeRequestAux c5Res 3 1).2.head? = some 2000 ∧
    axiosVimeoRetry c5WitRes 5 = (.ok "b", [2000]) :=
  ⟨c5_amended_wait_computation.1 c5WitRes 4 0 (some 2) none rfl,
   c5_amended_wait_computation.2.1 c5Res 2 1 (some 2) none rfl,
   c5_amended_wait_computation.2.2 2 "b" c5WitRes rfl rfl⟩

theorem stripVideosPath_eq_some {l r : List Char} :
    stripVideosPath l = some r ↔ l = videosPathChars ++ r := by
  constructor
  · intro h
    unfold stripVideosPath at h
    split at h
    · cases h; rfl
    · cases h
  · intro h
    subst h
    rfl

/-- C6: `formatVimeoUrl` maps exactly the paths `/videos/<digits>` to
exactly `https://player.vimeo.com/video/<digits>`; the `index.js` variant
agrees everywhere except that it fails with the FormatError instead of
`null`; and a video with a malformed identifier is a permanent local skip —
no remote call, no store write, processing continues with the remaining
videos of the folder (no retry exists for it). -/
theorem c6_format_shape_and_permanent_skip :
    (∀ s u : String, formatVimeoUrl s = some u ↔
        ∃ ds : List Char, ds ≠ [] ∧ ds.all Char.isDigit = true ∧
          s.data = videosPathChars ++ ds ∧ u.data = playerUrlChars ++ ds) ∧
    (∀ s : String, formatVimeoUrlIdx s =
        (match formatVimeoUrl s with
         | some u => .ok u
         | none => .error .formatError)) ∧
    (∀ (pandaByTitle : String → String → Except JsErr (Option PandaVideo))
        (pandaFolderId : String) (now : Nat) (db : DB) (v : VideoEntry),
        formatVimeoUrl v.uri = none →
        processVideo pandaByTitle pandaFolderId now db v = .ok (db, 0, 0) ∧
        ∀ rest : List VideoEntry,
          processVideoList pandaByTitle pandaFolderId now (v :: rest) db =
            processVideoList pandaByTitle pandaFolderId now rest db) := by
  refine ⟨?_, ?_, ?_⟩
  · intro s u
    constructor
    · intro h
      unfold formatVimeoUrl at h
      split at h
      · next rest hstrip =>
          split at h
          · next hcond =>
              cases h
              have hne : rest ≠ [] := by
                intro hnil
                subst hnil
                simp at hcond
              have hdig : rest.all Char.isDigit = true := by
                simpa using (Bool.and_elim_right hcond)
              exact ⟨rest, hne, hdig, stripVideosPath_eq_some.mp hstrip, rfl⟩
          · cases h
      · cases h
    · rintro ⟨ds, hne, hdig, hs, hu⟩
      unfold formatVimeoUrl
      rw [hs, stripVideosPath_eq_some.mpr rfl]
      have hempty : ds.isEmpty = false := by
        cases ds
        · exact absurd rfl hne
        · rfl
      simp only [hempty, hdig, Bool.not_false, Bool.and_self, if_true]
      obtain ⟨lu⟩ := u
      have hlu : lu = playerUrlChars ++ ds := hu
      subst hlu
      rfl
  · intro s
    unfold formatVimeoUrl formatVimeoUrlIdx
    cases hstrip : stripVideosPath s.data with
    | none => rfl
    | some rest =>
        by_cases hcond : (!rest.isEmpty && rest.all Char.isDigit) = true
        · simp [hcond]
        · simp [hcond]
  · intro pandaByTitle pandaFolderId now db v h
    have hv : processVideo pandaByTitle pandaFolderId now db v =
        .ok (db, 0, 0) := by
      unfold processVideo
      simp [h]
    refine ⟨hv, ?_⟩
    intro rest
    conv_lhs => rw [processVideoList]
    simp only [hv]
    cases hres : processVideoList pandaByTitle pandaFolderId now rest db <;>
      simp [hres]

/-- C6 witness: `/videos/42` has the digit shape and maps to the player URL;
a video with the malformed identifier `videos/9` is skipped with no write
and no remote call. -/
theorem c6_witness :
    (∃ ds : List Char, ds ≠ [] ∧ ds.all Char.isDigit = true ∧
        ("/videos/42" : String).data = videosPathChars ++ ds ∧
        ("https://player.vimeo.com/video/42" : String).data =
          playerUrlChars ++ ds) ∧
    processVideo c7Lookup "P1" 0 [] ⟨some "x", "videos/9"⟩ = .ok ([], 0, 0) :=
  ⟨(c6_format_shape_and_permanent_skip.1 "/videos/42"
      "https://player.vimeo.com/video/42").mp rfl,
   (c6_format_shape_and_permanent_skip.2.2 c7Lookup "P1" 0 []
      ⟨some "x", "videos/9"⟩ rfl).1⟩

/-- C7: pagination of the video lister: a page whose next reference is
absent (or falsy) stops the sequence — the result does not depend on the
remaining fuel; a page missing its data array ends the sequence normally
(no error) with no further writes; and a page with a next reference and a
present-but-empty data array continues with the next page. -/
theorem c7_pagination_termination :
    (∀ (fetchVideos : Url → Except JsErr VmVideoPage)
        (pandaByTitle : String → String → Except JsErr (Option PandaVideo))
        (pandaFolderId : String) (now : Nat) (url : Url) (db : DB)
        (page : VmVideoPage) (n m : Nat),
        fetchVideos url = .ok page → jsOrNull page.next = none →
        goVideoPages fetchVideos pandaByTitle pandaFolderId now (n + 1) url
            db =
          goVideoPages fetchVideos pandaByTitle pandaFolderId now (m + 1) url
            db) ∧
    (∀ (fetchVideos : Url → Except JsErr VmVideoPage)
        (pandaByTitle : String → String → Except JsErr (Option PandaVideo))
        (pandaFolderId : String) (now : Nat) (url : Url) (db : DB)
        (page : VmVideoPage) (n : Nat),
        fetchVideos url = .ok page → page.data = none →
        goVideoPages fetchVideos pandaByTitle pandaFolderId now (n + 1) url
          db = .ok (db, 0)) ∧
    (∀ (fetchVideos : Url → Except JsErr VmVideoPage)
        (pandaByTitle : String → String → Except JsErr (Option PandaVideo))
        (pandaFolderId : String) (now : Nat) (url nxt : Url) (db : DB)
        (page : VmVideoPage) (n : Nat),
        fetchVideos url = .ok page → page.data = some [] →
        jsOrNull page.next = some nxt →
        goVideoPages fetchVideos pandaByTitle pandaFolderId now (n + 1) url
            db =
          goVideoPages fetchVideos pandaByTitle pandaFolderId now n nxt db) := by
  refine ⟨?_, ?_, ?_⟩
  · intro fetchVideos pandaByTitle pandaFolderId now url db page n m hf hn
    unfold goVideoPages
    simp only [hf, hn]
  · intro fetchVideos pandaByTitle pandaFolderId now url db page n hf hd
    unfold goVideoPages
    simp only [hf, hd]
  · intro fetchVideos pandaByTitle pandaFolderId now url nxt db page n hf hd
      hn
    conv_lhs => rw [goVideoPages]
    simp only [hf, hd, hn, processVideoList]
    cases hres : goVideoPages fetchVideos pandaByTitle pandaFolderId now n
        nxt db <;> simp [hres]

/-- C7 witness: with `c7FetchV`, the page at "u0" (empty data array, next
"u1") continues to "u1"; the page at "u1" (no next) gives the same result
under any fuel; the page at "u2" (missing data array, next present) ends
the sequence without an error. -/
theorem c7_witness :
    goVideoPages c7FetchV c7Lookup "P1" 0 2 "u0" [] =
      goVideoPages c7FetchV c7Lookup "P1" 0 1 "u1" [] ∧
    goVideoPages c7FetchV c7Lookup "P1" 0 1 "u1" [] =
      goVideoPages c7FetchV c7Lookup "P1" 0 6 "u1" [] ∧
    goVideoPages c7FetchV c7Lookup "P1" 0 4 "u2" [] = .ok ([], 0) :=
  ⟨c7_pagination_termination.2.2 c7FetchV c7Lookup "P1" 0 "u0" "u1" []
      ⟨some [], some "u1"⟩ 1 rfl rfl rfl,
   c7_pagination_termination.1 c7FetchV c7Lookup "P1" 0 "u1" []
      ⟨some [⟨some "t", "/videos/3"⟩], none⟩ 0 5 rfl rfl,
   c7_pagination_termination.2.1 c7FetchV c7Lookup "P1" 0 "u2" []
      ⟨none, some "u9"⟩ 3 rfl rfl⟩

theorem findPandaFolderSearch_sound {folders : List PandaFolder}
    {name : String} {parent : Option String} {id : String}
    (h : findPandaFolderSearch folders name parent = some id) :
    ∃ f ∈ folders, f.id = id ∧ f.name = name ∧ f.parent_folder_id = parent := by
  unfold findPandaFolderSearch at h
  obtain ⟨f, hfind, hid⟩ := Option.map_eq_some'.mp h
  have hmem := List.mem_of_find?_eq_some hfind
  have hp := List.find?_some hfind
  unfold pandaFolderMatches at hp
  simp only [Bool.and_eq_true, Bool.or_eq_true, beq_iff_eq,
    Option.isNone_iff_eq_none] at hp
  obtain ⟨hname, hparent⟩ := hp
  refine ⟨f, hmem, hid, hname, ?_⟩
  rcases hparent with h | ⟨h₁, h₂⟩
  · exact h
  · rw [h₁, h₂]

/-- C8: folder resolution is exact-match: a returned id always belongs to a
listed folder whose name equals the requested name by string equality and
whose parent id equals the requested parent, with a null parent matching
only a null parent; consequently, if every listed folder carrying a given
id has parent `X`, resolving under any different parent `Y` (null or not)
never returns that id. -/
theorem c8_folder_resolution_exact_match :
    (∀ (folders : List PandaFolder) (name : String)
        (parent : Option String) (id : String),
        findPandaFolderSearch folders name parent = some id →
        ∃ f ∈ folders, f.id = id ∧ f.name = name ∧
          f.parent_folder_id = parent) ∧
    (∀ (folders : List PandaFolder) (name : String)
        (X Y : Option String) (id : String), X ≠ Y →
        (∀ f ∈ folders, f.id = id → f.parent_folder_id = X) →
        findPandaFolderSearch folders name Y ≠ some id) := by
  constructor
  · intro folders name parent id h
    exact findPandaFolderSearch_sound h
  · intro folders name X Y id hXY hall h
    obtain ⟨f, hmem, hid, _hname, hparent⟩ := findPandaFolderSearch_sound h
    exact hXY ((hall f hmem hid).symm.trans hparent)

/-- C8 witness: resolving ("Foo", null) over a list holding "Foo" under
parent "X" and "Foo" at the root returns the root folder, and the folder
under parent "X" is never returned when resolving under the root. -/
theorem c8_witness :
    (∃ f ∈ [⟨"A", "Foo", some "X"⟩, ⟨"B", "Foo", none⟩],
        PandaFolder.id f = "B" ∧ PandaFolder.name f = "Foo" ∧
          PandaFolder.parent_folder_id f = none) ∧
    findPandaFolderSearch [⟨"A", "Foo", some "X"⟩, ⟨"B", "Foo", none⟩]
      "Foo" none ≠ some "A" :=
  ⟨c8_folder_resolution_exact_match.1
      [⟨"A", "Foo", some "X"⟩, ⟨"B", "Foo", none⟩] "Foo" none "B" rfl,
   c8_folder_resolution_exact_match.2
      [⟨"A", "Foo", some "X"⟩, ⟨"B", "Foo", none⟩] "Foo" (some "X") none "A"
      (by simp)
      (by intro f hf hid
          fin_cases hf
          · rfl
          · exact absurd hid (by decide))⟩

/-- C9 counterexample: both videos have a nonempty download array
containing a download link, yet neither raises a ReferenceError,
contradicting the claim for "every Source video that has at least one
download link".  In the first, the strictly widest entry's `link` is null;
in the second, two entries tie on width and the stable sort keeps the
original first — link-less — entry at `download[0]`.  Either way
`downloadUrl` is null, the video is logged and skipped, and
`findPandaVideoByVimeoUrl` is never invoked. -/
theorem c9_download_link_not_reached_cex :
    idxProcessVideo [] c9CexVideo = .ok [] ∧
    (c9CexVideo.download.getD []).any (fun d => d.link.isSome) = true ∧
    idxProcessVideo [] c9TieVideo = .ok [] ∧
    (c9TieVideo.download.getD []).any (fun d => d.link.isSome) = true :=
  ⟨rfl, rfl, rfl, rfl⟩

theorem idxProcessVideo_refError {db : DB} {v : IdxVideo}
    (h : (idxDownloadUrl v).isSome = true) :
    idxProcessVideo db v = .error .referenceError := by
  unfold idxProcessVideo
  cases hd : idxDownloadUrl v with
  | none => rw [hd] at h; cases h
  | some u => rfl

theorem idxProcessVideo_skip {db : DB} {v : IdxVideo}
    (h : (idxDownloadUrl v).isSome = false) :
    idxProcessVideo db v = .ok db := by
  unfold idxProcessVideo
  cases hd : idxDownloadUrl v with
  | none => rfl
  | some u => rw [hd] at h; cases h

theorem idxProcessVideos_refError {db : DB} {videos : List IdxVideo}
    (h : ∃ v ∈ videos, (idxDownloadUrl v).isSome = true) :
    idxProcessVideos db videos = .error .referenceError := by
  induction videos generalizing db with
  | nil => obtain ⟨v, hv, _⟩ := h; cases hv
  | cons v rest ih =>
      unfold idxProcessVideos
      by_cases hv : (idxDownloadUrl v).isSome = true
      · rw [idxProcessVideo_refError hv]
      · rw [idxProcessVideo_skip (Bool.eq_false_iff.mpr hv)]
        apply ih
        obtain ⟨x, hx, hxs⟩ := h
        rcases List.mem_cons.mp hx with rfl | hx
        · exact absurd hxs hv
        · exact ⟨x, hx, hxs⟩

/-- C9 amended: for every Source video whose derived `downloadUrl` is
present (nonempty download array whose widest entry carries a non-empty
link), the `index.js` `processVideosInFolder` evaluates the undefined
identifier `findPandaVideoByVimeoUrl`, raising a ReferenceError that
escapes the per-item loop (later siblings are never reached), escapes the
page loop, and propagates to `run`'s top-level handler, ending the
traversal for the rest of the run. -/
theorem c9_amended_reference_error_aborts :
    (∀ (db : DB) (v : IdxVideo), (idxDownloadUrl v).isSome = true →
        idxProcessVideo db v = .error .referenceError) ∧
    (∀ (db : DB) (videos : List IdxVideo),
        (∃ v ∈ videos, (idxDownloadUrl v).isSome = true) →
        idxProcessVideos db videos = .error .referenceError) ∧
    (∀ (fetchVideos : Url → Except JsErr (Option IdxVideoPage))
        (fuel : Nat) (url : Url) (db : DB) (page : IdxVideoPage)
        (videos : List IdxVideo),
        fetchVideos url = .ok (some page) → page.data = some videos →
        (∃ v ∈ videos, (idxDownloadUrl v).isSome = true) →
        idxGoVideoPages fetchVideos (fuel + 1) url db =
          .error .referenceError) ∧
    (∀ (fetchFolders : Url → Except JsErr (Option IdxFolderPage))
        (fetchVideos : Url → Except JsErr (Option IdxVideoPage))
        (listResp : Except JsErr (Option (List PandaFolder)))
        (postResp : String → Option String → Except JsErr (Option String))
        (fuel : Nat) (rootUri : Url) (e : JsErr),
        idxGoFolderPages fetchFolders fetchVideos listResp postResp fuel
          (rootUri ++ "?per_page=100") none [] [] = .error e →
        idxRun fetchFolders fetchVideos listResp postResp fuel rootUri =
          some e) := by
  refine ⟨?_, ?_, ?_, ?_⟩
  · intro db v h
    exact idxProcessVideo_refError h
  · intro db videos h
    exact idxProcessVideos_refError h
  · intro fetchVideos fuel url db page videos hf hd hex
    unfold idxGoVideoPages
    rw [hf]
    simp only [hd, idxProcessVideos_refError hex]
  · intro fetchFolders fetchVideos listResp postResp fuel rootUri e h
    unfold idxRun
    rw [h]

/-- C9 witness: a run over a folder containing a video with a usable
download link ends with the fatal ReferenceError, and the per-video,
per-list and per-page conjuncts hold at that video. -/
theorem c9_witness :
    idxProcessVideo [] c9LinkedVideo = .error .referenceError ∧
    idxProcessVideos [] [c9LinkedVideo] = .error .referenceError ∧
    idxGoVideoPages c9FetchV 3 "v" [] = .error .referenceError ∧
    idxRun c9FetchF c9FetchV c9ListResp c9PostResp 3 "/root" =
      some .referenceError :=
  ⟨c9_amended_reference_error_aborts.1 [] c9LinkedVideo rfl,
   c9_amended_reference_error_aborts.2.1 [] [c9LinkedVideo]
      ⟨c9LinkedVideo, List.mem_singleton_self _, rfl⟩,
   c9_amended_reference_error_aborts.2.2.1 c9FetchV 2 "v" []
      ⟨some [c9LinkedVideo], none⟩ [c9LinkedVideo] rfl rfl
      ⟨c9LinkedVideo, List.mem_singleton_self _, rfl⟩,
   c9_amended_reference_error_aborts.2.2.2 c9FetchF c9FetchV c9ListResp
      c9PostResp 3 "/root" .referenceError rfl⟩

/-- C10: `findPandaFolder` and `createPandaFolder` in `src/index.js` catch
every thrown error and return null; `processFolder`'s resolution step
treats a null find result as "folder absent" and proceeds to create; and
in a run where the folder-listing call fails transiently while a folder of
the same name and parent already exists on the Target, the successful
creation yields a second Target folder with that name and parent — a
duplicate — with no error surfaced. -/
theorem c10_catch_null_and_duplicate_creation :
    (∀ (e : JsErr) (name : String) (parent : Option String),
        findPandaFolderIdx (.error e) name parent = none) ∧
    (∀ e : JsErr, createPandaFolderIdx (.error e) = none) ∧
    (∀ (target : List PandaFolder) (e : JsErr) (newId name : String)
        (parent : Option String), newId ≠ "" →
        idxResolveFolderStep target (some e) (.ok (some newId)) name parent =
          (some newId, target ++ [⟨newId, name, jsOrNull parent⟩])) ∧
    ((idxResolveFolderStep [⟨"X", "Foo", none⟩]
        (some (.axios none (some "ETIMEDOUT"))) (.ok (some "Y")) "Foo"
        none).2.filter
          (fun f => f.name == "Foo" && f.parent_folder_id.isNone)).length =
      2 := by
  refine ⟨?_, ?_, ?_, ?_⟩
  · intro e name parent; rfl
  · intro e; rfl
  · intro target e newId name parent hne
    unfold idxResolveFolderStep
    simp [findPandaFolderIdx, createPandaFolderIdx, jsOrNull_none,
      jsOrNull_some hne]
  · rfl

/-- C10 witness: the resolution step with a failed listing and a
successful creation, at a concrete non-empty new id. -/
theorem c10_witness :
    idxResolveFolderStep [⟨"X", "Foo", none⟩]
        (some (.axios none (some "ETIMEDOUT"))) (.ok (some "Y")) "Foo" none =
      (some "Y", [⟨"X", "Foo", none⟩] ++ [⟨"Y", "Foo", jsOrNull none⟩]) :=
  c10_catch_null_and_duplicate_creation.2.2.1 [⟨"X", "Foo", none⟩]
    (.axios none (some "ETIMEDOUT")) "Y" "Foo" none (by decide)

end VimeoPanda
